import Mathlib

/-
Verification of the privval IPC connection supervisor (ipc_client.go).

The embedding models the `IPCVal` struct and its operations `NewIPCVal`,
`IPCValConnTimeout`, `IPCValHeartbeat`, `connect`, `OnStart`, the heartbeat
monitor goroutine body, and `OnStop`.  External I/O outcomes (resolve/dial,
handshake, ping) are supplied as oracle inputs; each operation additionally
returns the list of observable events it performs (lock acquisitions, field
writes, connection closes, log calls), so that frame and ordering properties
can be stated about the traces.
-/

namespace Privval

/-- Raw connections produced by `net.DialUnix` are identified by a natural
number; `newTimeoutConn` wraps a raw connection together with the read/write
timeout that applies to its subsequent I/O.  A `Conn` value is the wrapped
connection stored in the `conn` field. -/
structure Conn where
  id : Nat
  timeout : Nat
deriving DecidableEq

/-- Modelled from the spec: `RemoteSignerClient` (the SigningSession) is the
handshake-derived handle; its implementation is outside this file, so it is
modelled as a handle recording which connection it was derived from. -/
structure RemoteSignerClient where
  connId : Nat
deriving DecidableEq

/-- State of the `cancelPing` channel: `chanNil` is the zero value before
`OnStart` allocates it, `chanOpen` after `make`, `chanClosed` after `close`.
Closing a `chanClosed` channel panics in Go. -/
inductive ChanState
  | chanNil
  | chanOpen
  | chanClosed
deriving DecidableEq

/-- The `IPCVal` struct.  Durations are nanosecond counts.  `conn` and
`remoteSignerClient` are `Option`s because the Go zero values are nil;
`pingTickerRunning` models whether the `pingTicker` is live. -/
structure IPCVal where
  addr : String
  connTimeout : Nat
  connHeartbeat : Nat
  conn : Option Conn := none
  remoteSignerClient : Option RemoteSignerClient := none
  cancelPing : ChanState := .chanNil
  pingTickerRunning : Bool := false
deriving DecidableEq

/-- Modelled from the spec: the package-level default `connTimeout` constant
is declared outside this file; the spec states only that it is a nonzero
duration (three seconds in nanoseconds is used here). -/
def connTimeoutDefault : Nat := 3000000000

/-- Modelled from the spec: the package-level default `connHeartbeat`
constant is declared outside this file; the spec states only that it is a
nonzero duration (two seconds in nanoseconds is used here). -/
def connHeartbeatDefault : Nat := 2000000000

/-- An `IPCValOption` sets an optional parameter on the value. -/
def IPCValOption := IPCVal → IPCVal

/-- `IPCValConnTimeout` sets the read and write timeout for connections. -/
def IPCValConnTimeout (timeout : Nat) : IPCValOption :=
  fun sc => { sc with connTimeout := timeout }

/-- `IPCValHeartbeat` sets the period on which to check liveness. -/
def IPCValHeartbeat (period : Nat) : IPCValOption :=
  fun sc => { sc with connHeartbeat := period }

/-- `NewIPCVal` returns an instance of `IPCVal`: it records the socket
address and installs the package defaults for both durations.  Its Go
signature is `NewIPCVal(logger log.Logger, socketAddr string)`; the logger
plays no role in the state and is dropped. -/
def NewIPCVal (socketAddr : String) : IPCVal :=
  { addr := socketAddr
    connTimeout := connTimeoutDefault
    connHeartbeat := connHeartbeatDefault }

/-- `newTimeoutConn` wraps a raw connection so that the given timeout
applies to its subsequent reads and writes. -/
def newTimeoutConn (raw : Nat) (timeout : Nat) : Conn :=
  { id := raw, timeout := timeout }

/-- Errors surfaced by the operations.  `resolveErr` and `dialErr` come from
`net.ResolveUnixAddr` / `net.DialUnix` inside `connect`; `handshakeErr` from
`NewRemoteSignerClient`; `alreadyStarted` is the service-level error for a
second `Start` (modelled from the spec's lifecycle description). -/
inductive IPCErr
  | resolveErr
  | dialErr
  | handshakeErr
  | alreadyStarted
deriving DecidableEq

/-- Observable events emitted by the operations: lock operations on
`connMtx` (`lockSh`/`unlockSh` are `RLock`/`RUnlock`, `lockEx`/`unlockEx`
are `Lock`/`Unlock`), writes to the shared fields, a `connectAttempt` each
time `connect` is entered (resolve + dial), `closeConn` when a connection's
`Close` is called, ticker stop, and log calls. -/
inductive Event
  | connectAttempt
  | probe
  | lockSh
  | unlockSh
  | lockEx
  | unlockEx
  | setConn (c : Option Conn)
  | setSession (s : Option RemoteSignerClient)
  | closeConn (id : Nat)
  | tickerStop
  | logErr
  | logInfo
deriving DecidableEq

/-- Oracle outcome of one `connect` attempt: `net.ResolveUnixAddr` fails,
`net.DialUnix` fails, or the dial yields raw connection `raw`. -/
inductive DialOutcome
  | resolveFail
  | dialFail
  | ok (raw : Nat)
deriving DecidableEq

/-- Oracle outcome of one `NewRemoteSignerClient` handshake. -/
inductive HandshakeOutcome
  | ok
  | fail
deriving DecidableEq

/-- Oracle outcome of one `Ping` call: success, the protocol-violation
error `ErrUnexpectedResponse`, or any other (transient) error. -/
inductive PingResult
  | ok
  | unexpectedResponse
  | transient
deriving DecidableEq

/-- `connect` resolves the address and dials; on failure it returns the
error having touched nothing; on success it takes the exclusive lock and
replaces `conn` with the new connection wrapped with `connTimeout`. -/
def connect (sc : IPCVal) (d : DialOutcome) : IPCVal × Option IPCErr × List Event :=
  match d with
  | .resolveFail => (sc, some .resolveErr, [.connectAttempt])
  | .dialFail => (sc, some .dialErr, [.connectAttempt])
  | .ok raw =>
    let c := newTimeoutConn raw sc.connTimeout
    ({ sc with conn := some c }, none,
      [.connectAttempt, .lockEx, .setConn (some c), .unlockEx])

/-- Modelled from the spec: `NewRemoteSignerClient` (openSigningSession) is
implemented outside this file; per the spec it either returns a session
handle derived from the connection or a `HandshakeError` (and no session). -/
def NewRemoteSignerClient (c : Conn) (h : HandshakeOutcome) :
    Except IPCErr RemoteSignerClient :=
  match h with
  | .ok => .ok { connId := c.id }
  | .fail => .error .handshakeErr

/-- Go's two-value assignment `sc.RemoteSignerClient, err = NewRemoteSignerClient(sc.conn)`
stores the returned client value unconditionally: the session handle on
success, and the nil result on handshake failure. -/
def assignSession (sc : IPCVal) (r : Except IPCErr RemoteSignerClient) : IPCVal :=
  match r with
  | .ok s => { sc with remoteSignerClient := some s }
  | .error _ => { sc with remoteSignerClient := none }

/-- Supervisor together with the liveness of the background monitor
goroutine spawned by `OnStart`. -/
structure World where
  sc : IPCVal
  monitorAlive : Bool
deriving DecidableEq

/-- `OnStart`: first `connect`; on failure log and return the connect error
unchanged.  Then, under `RLock`, run the handshake; on failure return that
error (the new connection stays stored and is not closed on this path).  On
success allocate `cancelPing`, start the ticker and spawn the monitor. -/
def OnStart (sc : IPCVal) (d : DialOutcome) (h : HandshakeOutcome) :
    World × Option IPCErr × List Event :=
  match connect sc d with
  | (sc1, some e, ev1) => (⟨sc1, false⟩, some e, ev1 ++ [.logErr])
  | (sc1, none, ev1) =>
    match sc1.conn with
    | none => (⟨sc1, false⟩, none, ev1)
    | some c =>
      let r := NewRemoteSignerClient c h
      let sc2 := assignSession sc1 r
      match r with
      | .error e =>
        (⟨sc2, false⟩, some e, ev1 ++ [.lockSh, .setSession none, .unlockSh])
      | .ok s =>
        (⟨{ sc2 with cancelPing := .chanOpen, pingTickerRunning := true }, true⟩,
          none, ev1 ++ [.lockSh, .setSession (some s), .unlockSh])

/-- Oracle inputs consumed by one iteration of the monitor loop on a
`pingTicker` tick: the ping result, and (used only when reconnecting) the
dial outcome and handshake outcome. -/
structure TickInput where
  ping : PingResult
  dial : DialOutcome
  hs : HandshakeOutcome
deriving DecidableEq

/-- One `pingTicker.C` iteration of the monitor goroutine.  A dead monitor
does nothing.  Ping success: nothing.  `ErrUnexpectedResponse`: log and
return (the goroutine exits; the ticker is not stopped).  Other errors: log,
`connect`; on connect failure log and continue; otherwise re-handshake under
`RLock`; on handshake failure log and close the (new) stored connection,
continue; on success log recovery. -/
def monitorTick (w : World) (inp : TickInput) : World × List Event :=
  match w.monitorAlive with
  | false => (w, [])
  | true =>
    match inp.ping with
    | .ok => (w, [.probe])
    | .unexpectedResponse => ({ w with monitorAlive := false }, [.probe, .logErr])
    | .transient =>
      match connect w.sc inp.dial with
      | (sc1, some _, ev1) =>
        ({ w with sc := sc1 }, [.probe, .logErr] ++ ev1 ++ [.logErr])
      | (sc1, none, ev1) =>
        match sc1.conn with
        | none => ({ w with sc := sc1 }, [.probe, .logErr] ++ ev1)
        | some c =>
          let r := NewRemoteSignerClient c inp.hs
          let sc2 := assignSession sc1 r
          match r with
          | .error _ =>
            ({ w with sc := sc2 },
              [.probe, .logErr] ++ ev1 ++
                [.lockSh, .setSession none, .unlockSh, .logErr,
                  .lockSh, .closeConn c.id, .unlockSh])
          | .ok s =>
            ({ w with sc := sc2 },
              [.probe, .logErr] ++ ev1 ++
                [.lockSh, .setSession (some s), .unlockSh, .logInfo])

/-- The `cancelPing` branch of the monitor's select: stop the ticker and
exit the goroutine. -/
def cancelStep (w : World) : World × List Event :=
  match w.monitorAlive with
  | false => (w, [])
  | true =>
    (⟨{ w.sc with pingTickerRunning := false }, false⟩, [.tickerStop])

/-- Run the monitor over a sequence of ticks, concatenating the traces. -/
def runTicks (w : World) : List TickInput → World × List Event
  | [] => (w, [])
  | i :: is =>
    match monitorTick w i with
    | (w1, ev1) =>
      match runTicks w1 is with
      | (w2, ev2) => (w2, ev1 ++ ev2)

/-- Close of the connection in `OnStop`: under `RLock`, if `conn` is non-nil
call its `Close`; a close error (`closeFails`) is logged, never returned. -/
def closeConnPart (sc : IPCVal) (closeFails : Bool) : IPCVal × Bool × List Event :=
  match sc.conn with
  | some c =>
    (sc, false, [.lockSh, .closeConn c.id] ++ (if closeFails then [.logErr] else []) ++ [.unlockSh])
  | none => (sc, false, [.lockSh, .unlockSh])

/-- `OnStop`: if `cancelPing` is non-nil, `close` it — closing an
already-closed channel panics (second component `true`); then close the
connection, logging close errors. -/
def OnStop (sc : IPCVal) (closeFails : Bool) : IPCVal × Bool × List Event :=
  match sc.cancelPing with
  | .chanClosed => (sc, true, [])
  | .chanNil => closeConnPart sc closeFails
  | .chanOpen => closeConnPart { sc with cancelPing := .chanClosed } closeFails

/-- Modelled from the spec: the hosting service lifecycle state that guards
`Start`/`Stop` (NotStarted → Running → Stopped, monotonic, Stopped
terminal); the base-service code lives outside this file. -/
inductive LifecycleState
  | notStarted
  | running
  | stopped
deriving DecidableEq

/-- A supervisor instance together with its service lifecycle state. -/
structure Service where
  world : World
  lifecycleState : LifecycleState
deriving DecidableEq

/-- Modelled from the spec: service-level `Start` runs `OnStart` only from
`NotStarted`; a failed `OnStart` leaves the service startable again with no
monitor running; a successful one moves it to `Running`.  The third
component reports whether this call launched the monitor goroutine. -/
def Start (s : Service) (d : DialOutcome) (h : HandshakeOutcome) :
    Service × Option IPCErr × Bool :=
  match s.lifecycleState with
  | .notStarted =>
    match OnStart s.world.sc d h with
    | (w, some e, _) => ({ s with world := w }, some e, false)
    | (w, none, _) => (⟨w, .running⟩, none, w.monitorAlive)
  | _ => (s, some .alreadyStarted, false)

/-- Modelled from the spec: service-level `Stop` runs `OnStop` only from
`Running` and moves to `Stopped`; any other call is a no-op.  The second
component reports a panic inside `OnStop`. -/
def Stop (s : Service) (closeFails : Bool) : Service × Bool × List Event :=
  match s.lifecycleState with
  | .running =>
    match OnStop s.world.sc closeFails with
    | (sc1, p, ev) => (⟨⟨sc1, s.world.monitorAlive⟩, .stopped⟩, p, ev)
  | _ => (s, false, [])

/-- Input of one service-level `Start` call. -/
def StartInput := DialOutcome × HandshakeOutcome

/-- Run a sequence of `Start` calls, counting how many launched a monitor. -/
def runStarts : Service → List StartInput → Service × Nat
  | s, [] => (s, 0)
  | s, i :: is =>
    match Start s i.1 i.2 with
    | (s1, _, launched) =>
      match runStarts s1 is with
      | (s2, n) => (s2, (if launched then 1 else 0) + n)

/-- A freshly constructed, not-yet-started supervisor instance. -/
def initService (socketAddr : String) : Service :=
  ⟨⟨NewIPCVal socketAddr, false⟩, .notStarted⟩

/-- A concrete socket address used by the concrete instances below. -/
def sampleAddr : String := "/tmp/signer.sock"

theorem runTicks_dead (sc : IPCVal) (l : List TickInput) :
    runTicks ⟨sc, false⟩ l = (⟨sc, false⟩, []) := by
  induction l with
  | nil => rfl
  | cons i is ih => simp [runTicks, monitorTick, ih]

/-- C1: once `Ping` on a tick returns `ErrUnexpectedResponse`, the monitor
goroutine exits, and over any number of subsequent ticks it performs no
further probes, no further dial attempts, and no state change at all. -/
theorem C1_fatal_halts_monitoring (w : World) (d : DialOutcome) (h : HandshakeOutcome)
    (rest : List TickInput) :
    (monitorTick w ⟨.unexpectedResponse, d, h⟩).1.monitorAlive = false ∧
    runTicks (monitorTick w ⟨.unexpectedResponse, d, h⟩).1 rest
      = ((monitorTick w ⟨.unexpectedResponse, d, h⟩).1, []) := by
  obtain ⟨sc, alive⟩ := w
  cases alive
  · exact ⟨rfl, runTicks_dead sc rest⟩
  · exact ⟨rfl, runTicks_dead sc rest⟩

/-- Concrete supervisor used to refute C2: old pair is connection #0 with
its derived session. -/
def scC2 : IPCVal :=
  { NewIPCVal sampleAddr with
    conn := some (newTimeoutConn 0 connTimeoutDefault)
    remoteSignerClient := some { connId := 0 }
    cancelPing := .chanOpen
    pingTickerRunning := true }

/-- C2 counterexample: on a transient ping failure, dial success for raw
connection #5, handshake failure, the pre-attempt pair is NOT left
unchanged: `conn` has been replaced by the new connection and
`remoteSignerClient` has been overwritten (nulled). -/
theorem C2_counterexample :
    (monitorTick ⟨scC2, true⟩ ⟨.transient, .ok 5, .fail⟩).1.sc.conn ≠ scC2.conn ∧
    (monitorTick ⟨scC2, true⟩ ⟨.transient, .ok 5, .fail⟩).1.sc.remoteSignerClient
      ≠ scC2.remoteSignerClient := by
  exact ⟨by decide, by decide⟩

/-- C2 (amended): on the reconnect path, when the dial succeeds and the
handshake then fails, the newly dialed connection is explicitly closed, but
it remains stored in `conn` (replacing the pre-attempt connection), the
session field is overwritten with the nil handshake result, the monitor
stays alive, and it waits for the next tick to retry. -/
theorem C2_handshake_failure_closes_new_conn (sc : IPCVal) (raw : Nat) :
    monitorTick ⟨sc, true⟩ ⟨.transient, .ok raw, .fail⟩ =
      (⟨{ sc with
            conn := some (newTimeoutConn raw sc.connTimeout)
            remoteSignerClient := none }, true⟩,
        [.probe, .logErr, .connectAttempt, .lockEx,
          .setConn (some (newTimeoutConn raw sc.connTimeout)), .unlockEx,
          .lockSh, .setSession none, .unlockSh, .logErr,
          .lockSh, .closeConn raw, .unlockSh]) := rfl

/-- C3: on a transient ping failure followed by a failing dial (either the
resolve or the dial step), the supervisor state is exactly preserved —
`conn` and `remoteSignerClient` keep the values they held before — the
monitor stays alive, and any subsequent transient tick performs another
connect attempt. -/
theorem C3_reconnect_failure_preserves_state (sc : IPCVal)
    (h' : HandshakeOutcome) (d' : DialOutcome) (h'' : HandshakeOutcome) :
    monitorTick ⟨sc, true⟩ ⟨.transient, .resolveFail, h'⟩
      = (⟨sc, true⟩, [.probe, .logErr, .connectAttempt, .logErr]) ∧
    monitorTick ⟨sc, true⟩ ⟨.transient, .dialFail, h'⟩
      = (⟨sc, true⟩, [.probe, .logErr, .connectAttempt, .logErr]) ∧
    Event.connectAttempt ∈ (monitorTick ⟨sc, true⟩ ⟨.transient, d', h''⟩).2 := by
  refine ⟨rfl, rfl, ?_⟩
  cases d' <;> cases h'' <;>
    simp [monitorTick, connect, NewRemoteSignerClient, assignSession]

/-- C5: `connect` fails with the resolve error or the dial error leaving the
whole state (in particular `conn`) unchanged when the endpoint cannot be
resolved or reached; on success it replaces `conn`, under exclusive lock
acquisition, with the new connection wrapped with `connTimeout`; and in
every case it leaves `remoteSignerClient` untouched. -/
theorem C5_connect_contract (sc : IPCVal) (raw : Nat) (d : DialOutcome) :
    connect sc .resolveFail = (sc, some .resolveErr, [.connectAttempt]) ∧
    connect sc .dialFail = (sc, some .dialErr, [.connectAttempt]) ∧
    connect sc (.ok raw) =
      ({ sc with conn := some (newTimeoutConn raw sc.connTimeout) }, none,
        [.connectAttempt, .lockEx,
          .setConn (some (newTimeoutConn raw sc.connTimeout)), .unlockEx]) ∧
    (connect sc d).1.remoteSignerClient = sc.remoteSignerClient := by
  refine ⟨rfl, rfl, rfl, ?_⟩
  cases d <;> rfl

theorem Start_state_of_launched (s : Service) (d : DialOutcome) (h : HandshakeOutcome) :
    (Start s d h).2.2 = true → (Start s d h).1.lifecycleState = .running := by
  unfold Start
  cases hs : s.lifecycleState
  · cases hO : OnStart s.world.sc d h with
    | mk w rest =>
      obtain ⟨e, ev⟩ := rest
      cases e <;> simp
  · simp
  · simp

theorem Start_state_of_not_notStarted (s : Service) (d : DialOutcome) (h : HandshakeOutcome) :
    s.lifecycleState ≠ .notStarted →
      (Start s d h).1 = s ∧ (Start s d h).2.2 = false := by
  intro hne
  unfold Start
  cases hs : s.lifecycleState
  · exact absurd hs hne
  · exact ⟨rfl, rfl⟩
  · exact ⟨rfl, rfl⟩

theorem runStarts_no_launch (l : List StartInput) (s : Service)
    (h : s.lifecycleState ≠ .notStarted) : (runStarts s l).2 = 0 := by
  induction l with
  | nil => rfl
  | cons i is ih =>
    obtain ⟨h1, h2⟩ := Start_state_of_not_notStarted s i.1 i.2 h
    cases hS : Start s i.1 i.2 with
    | mk s1 rest =>
      obtain ⟨e, b⟩ := rest
      rw [hS] at h1 h2
      simp only at h1 h2
      subst h1 h2
      simp [runStarts, hS, ih]

theorem runStarts_le_one (s : Service) (l : List StartInput) :
    (runStarts s l).2 ≤ 1 := by
  induction l generalizing s with
  | nil => simp [runStarts]
  | cons i is ih =>
    cases hS : Start s i.1 i.2 with
    | mk s1 rest =>
      obtain ⟨e, b⟩ := rest
      cases b
      · simpa [runStarts, hS] using ih s1
      · have hrun : s1.lifecycleState = .running := by
          have := Start_state_of_launched s i.1 i.2
          rw [hS] at this
          exact this rfl
        have hzero : (runStarts s1 is).2 = 0 :=
          runStarts_no_launch is s1 (by rw [hrun]; intro hc; exact absurd hc (by simp))
        simp [runStarts, hS, hzero]

/-- C4: if the initial `connect` in `OnStart` fails, the connect error is
returned unchanged and no monitor is launched; if connect and handshake
succeed, the connection/session pair is initialized and exactly one monitor
goroutine is launched; and across any sequence of service-level `Start`
calls on one instance, at most one monitor is ever launched. -/
theorem C4_start_contract (sc : IPCVal) (h : HandshakeOutcome) (raw : Nat)
    (socketAddr : String) (l : List StartInput) :
    OnStart sc .resolveFail h
      = (⟨sc, false⟩, (connect sc .resolveFail).2.1, [.connectAttempt, .logErr]) ∧
    OnStart sc .dialFail h
      = (⟨sc, false⟩, (connect sc .dialFail).2.1, [.connectAttempt, .logErr]) ∧
    OnStart sc (.ok raw) .ok =
      (⟨{ sc with
            conn := some (newTimeoutConn raw sc.connTimeout)
            remoteSignerClient := some { connId := raw }
            cancelPing := .chanOpen
            pingTickerRunning := true }, true⟩,
        none,
        [.connectAttempt, .lockEx,
          .setConn (some (newTimeoutConn raw sc.connTimeout)), .unlockEx,
          .lockSh, .setSession (some { connId := raw }), .unlockSh]) ∧
    (runStarts (initService socketAddr) l).2 ≤ 1 :=
  ⟨rfl, rfl, rfl, runStarts_le_one _ l⟩

/-- Concrete supervisor used for C6: started state, open cancel channel,
live connection #0. -/
def scC6 : IPCVal :=
  { NewIPCVal sampleAddr with
    conn := some (newTimeoutConn 0 connTimeoutDefault)
    remoteSignerClient := some { connId := 0 }
    cancelPing := .chanOpen
    pingTickerRunning := true }

/-- C6 counterexample: invoking the `OnStop` hook itself twice panics, since
the second call re-closes the already-closed `cancelPing` channel (Go's
`close` of a closed channel panics). -/
theorem C6_counterexample :
    (OnStop (OnStop scC6 false).1 false).2.1 = true := by decide

/-- C6 (amended): the service-level stop operation, which guards the
`OnStop` hook with the lifecycle state, is safe to call a second time: the
second call panics on nothing, closes nothing (empty event trace, so no
second close of the connection or of the channel) and is a no-op; the raw
`OnStop` hook called twice would re-close the cancellation channel. -/
theorem C6_stop_idempotent (s : Service) (c1 c2 : Bool) :
    Stop (Stop s c1).1 c2 = ((Stop s c1).1, false, []) := by
  obtain ⟨w, st⟩ := s
  cases st
  · rfl
  · cases hO : OnStop w.sc c1 with
    | mk sc1 rest => simp [Stop, hO]
  · rfl

/-- C8 counterexample: the constructor's Go signature is
`NewIPCVal(logger, socketAddr)` — it accepts no options, so a constructed
instance always carries the package defaults; only applying an option
function to the instance after construction changes them. -/
theorem C8_counterexample :
    (NewIPCVal sampleAddr).connTimeout = connTimeoutDefault ∧
    (NewIPCVal sampleAddr).connHeartbeat = connHeartbeatDefault ∧
    (IPCValConnTimeout 12345 (NewIPCVal sampleAddr)).connTimeout
      ≠ (NewIPCVal sampleAddr).connTimeout := by
  exact ⟨rfl, rfl, by decide⟩

/-- C8 (amended): both durations have nonzero defaults, and the option
setters `IPCValConnTimeout` / `IPCValHeartbeat` replace exactly their own
duration when applied to an instance, but `NewIPCVal` accepts no options,
so every constructed instance carries the defaults; overrides are applied
to the instance after construction, not at construction. -/
theorem C8_defaults_and_options (sc : IPCVal) (t p : Nat) (socketAddr : String) :
    connTimeoutDefault ≠ 0 ∧
    connHeartbeatDefault ≠ 0 ∧
    (NewIPCVal socketAddr).connTimeout = connTimeoutDefault ∧
    (NewIPCVal socketAddr).connHeartbeat = connHeartbeatDefault ∧
    (IPCValConnTimeout t sc).connTimeout = t ∧
    (IPCValHeartbeat p sc).connHeartbeat = p ∧
    (IPCValConnTimeout t sc).connHeartbeat = sc.connHeartbeat ∧
    (IPCValHeartbeat p sc).connTimeout = sc.connTimeout := by
  refine ⟨by decide, by decide, rfl, rfl, rfl, rfl, rfl, rfl⟩

/-- C9: no tick of the monitor ever stops the ping ticker or changes the
`pingTickerRunning` field — in particular the fatal `ErrUnexpectedResponse`
path exits the goroutine leaving the ticker running — and the ticker is
stopped exactly on the cancellation path (`cancelPing` receipt). -/
theorem C9_ticker_survives_fatal_exit (w : World) (inp : TickInput)
    (sc : IPCVal) (d : DialOutcome) (h : HandshakeOutcome) :
    Event.tickerStop ∉ (monitorTick w inp).2 ∧
    (monitorTick w inp).1.sc.pingTickerRunning = w.sc.pingTickerRunning ∧
    monitorTick ⟨sc, true⟩ ⟨.unexpectedResponse, d, h⟩ = (⟨sc, false⟩, [.probe, .logErr]) ∧
    cancelStep ⟨sc, true⟩
      = (⟨{ sc with pingTickerRunning := false }, false⟩, [.tickerStop]) := by
  obtain ⟨wsc, alive⟩ := w
  obtain ⟨p, d', h'⟩ := inp
  refine ⟨?_, ?_, rfl, rfl⟩
  · cases alive <;> cases p <;> cases d' <;> cases h' <;>
      simp [monitorTick, connect, NewRemoteSignerClient, assignSession]
  · cases alive <;> cases p <;> cases d' <;> cases h' <;>
      simp [monitorTick, connect, NewRemoteSignerClient, assignSession]

/-- C10: when the initial connect succeeds but the handshake fails,
`OnStart` returns the handshake error, the newly dialed connection stays
stored in `conn` and is not closed on this path (no `closeConn` in the
trace), `cancelPing` remains nil and no monitor is spawned; a subsequent
`OnStop` on that instance does not panic (it skips the nil channel) and
closes that connection. -/
theorem C10_handshake_failure_on_start (socketAddr : String) (raw : Nat) (cf : Bool) :
    OnStart (NewIPCVal socketAddr) (.ok raw) .fail =
      (⟨{ NewIPCVal socketAddr with
            conn := some (newTimeoutConn raw connTimeoutDefault)
            remoteSignerClient := none }, false⟩,
        some .handshakeErr,
        [.connectAttempt, .lockEx,
          .setConn (some (newTimeoutConn raw connTimeoutDefault)), .unlockEx,
          .lockSh, .setSession none, .unlockSh]) ∧
    Event.closeConn raw ∉ (OnStart (NewIPCVal socketAddr) (.ok raw) .fail).2.2 ∧
    (OnStart (NewIPCVal socketAddr) (.ok raw) .fail).1.sc.cancelPing = .chanNil ∧
    OnStop (OnStart (NewIPCVal socketAddr) (.ok raw) .fail).1.sc cf =
      ((OnStart (NewIPCVal socketAddr) (.ok raw) .fail).1.sc, false,
        [.lockSh, .closeConn raw] ++ (if cf then [.logErr] else []) ++ [.unlockSh]) := by
  refine ⟨rfl, ?_, rfl, rfl⟩
  simp [OnStart, connect, NewRemoteSignerClient, assignSession, NewIPCVal]

/-- Atomic operations on the `connMtx`-guarded pair, as performed by the
threads: shared and exclusive lock acquire/release, a write of the
connection slot, a write of the session slot, and a reader's observation of
the pair. -/
inductive LockOp
  | acqSh
  | relSh
  | acqEx
  | relEx
  | wConn (v : Nat)
  | wSess (v : Nat)
  | rPair
deriving DecidableEq

/-- State of the reader-writer lock together with the guarded pair and the
last pair a reader observed. -/
structure RWState where
  readers : Nat
  writerHeld : Bool
  connSlot : Nat
  sessSlot : Nat
  observed : Option (Nat × Nat)
deriving DecidableEq

/-- Small-step semantics of one atomic operation under reader-writer lock
semantics; `none` means the operation is blocked (not enabled). -/
def lockStep (st : RWState) (op : LockOp) : Option RWState :=
  match op with
  | .acqSh => if st.writerHeld then none else some { st with readers := st.readers + 1 }
  | .relSh =>
    match st.readers with
    | 0 => none
    | n + 1 => some { st with readers := n }
  | .acqEx =>
    if st.writerHeld then none
    else match st.readers with
      | 0 => some { st with writerHeld := true }
      | _ + 1 => none
  | .relEx => if st.writerHeld then some { st with writerHeld := false } else none
  | .wConn v => some { st with connSlot := v }
  | .wSess v => some { st with sessSlot := v }
  | .rPair => some { st with observed := some (st.connSlot, st.sessSlot) }

/-- Encoding of the `conn` field into the connection slot (nil is 0). -/
def encConn : Option Conn → Nat
  | none => 0
  | some c => c.id + 1

/-- Encoding of the `remoteSignerClient` field into the session slot. -/
def encSess : Option RemoteSignerClient → Nat
  | none => 0
  | some s => s.connId + 1

/-- Projection of an observable event to the lock-level atomic operation it
performs on the guarded pair, if any. -/
def opOfEvent : Event → Option LockOp
  | .lockSh => some .acqSh
  | .unlockSh => some .relSh
  | .lockEx => some .acqEx
  | .unlockEx => some .relEx
  | .setConn c => some (.wConn (encConn c))
  | .setSession s => some (.wSess (encSess s))
  | _ => none

/-- The lock-level atomic operations performed by an event trace. -/
def opsOfEvents (evs : List Event) : List LockOp := evs.filterMap opOfEvent

/-- A foreground reader of the pair: shared acquire, read, release. -/
def readerOps : List LockOp := [.acqSh, .rPair, .relSh]

/-- Interleave two threads' operation lists according to a schedule
(`true` picks the first thread); `none` if the schedule picks an exhausted
thread or an operation that is not enabled. -/
def interleave : RWState → List LockOp → List LockOp → List Bool → Option RWState
  | st, _, _, [] => some st
  | st, as, bs, c :: sch =>
    if c then
      match as with
      | [] => none
      | a :: as1 =>
        match lockStep st a with
        | none => none
        | some st1 => interleave st1 as1 bs sch
    else
      match bs with
      | [] => none
      | b :: bs1 =>
        match lockStep st b with
        | none => none
        | some st1 => interleave st1 as bs1 sch

/-- Concrete supervisor used for C7: old pair is connection #0 and its
derived session (slot encoding 1 for both). -/
def scC7 : IPCVal :=
  { NewIPCVal sampleAddr with
    conn := some (newTimeoutConn 0 connTimeoutDefault)
    remoteSignerClient := some { connId := 0 }
    cancelPing := .chanOpen
    pingTickerRunning := true }

/-- The monitor's successful reconnect to raw connection #1, projected to
its lock-level operations (slot encoding 2 for the new pair). -/
def reconnectWriterOps : List LockOp :=
  opsOfEvents (monitorTick ⟨scC7, true⟩ ⟨.transient, .ok 1, .ok⟩).2

/-- Initial lock state holding the old pair. -/
def rwInit : RWState :=
  ⟨0, false, encConn scC7.conn, encSess scC7.remoteSignerClient, none⟩

/-- A schedule: the monitor performs its connection swap (exclusive lock
scope), then a reader runs to completion, then the monitor performs its
session swap (shared lock scope). -/
def mixedSchedule : List Bool :=
  [true, true, true, false, false, false, true, true, true]

/-- C7: the monitor's reconnect writes the connection and the session in
two separate lock critical sections (the session one under the shared
lock), so a reader scheduled between them — every step enabled under
reader-writer lock semantics — observes the pair (2, 1): the new connection
(slot value 2) together with the old session (slot value 1), which is
neither the fully old pair (1, 1) nor the fully new pair (2, 2). -/
theorem C7_mixed_pair_observable :
    reconnectWriterOps = [.acqEx, .wConn 2, .relEx, .acqSh, .wSess 2, .relSh] ∧
    encConn scC7.conn = 1 ∧
    encSess scC7.remoteSignerClient = 1 ∧
    (interleave rwInit reconnectWriterOps readerOps mixedSchedule).map RWState.observed
      = some (some (2, 1)) ∧
    (some (2, 1) : Option (Nat × Nat)) ≠ some (1, 1) ∧
    (some (2, 1) : Option (Nat × Nat)) ≠ some (2, 2) := by
  refine ⟨by decide, by decide, by decide, by decide, by decide, by decide⟩

end Privval
